import Mathlib

/-
Formal model of radvisor/parser.py, a script that parses rAdvisor container
stat logs (a YAML metadata header followed by a CSV body) and analyzes the
sampling-interval deltas of the parsed read timestamps.

Modelling conventions:
* A file is its list of lines (without trailing newline characters).
* Python exceptions are modelled with the Except monad over the PyErr type:
  an exception that a function does not catch becomes an error value that
  propagates to its caller, exactly as in the source.
* Python "int" values are Lean Int; Python floats only ever hold values
  obtained from exact integer data divided by 1e6 or from small-integer
  percentile arithmetic, so they are modelled as exact rationals.
* Python str builtins used by the source (split with a one-character
  separator, strip, startswith, substring containment, int conversion) are
  modelled character-by-character below with Python semantics.
* The module defines the class name BlkioEntry twice (lines 34 and 49 of
  the source); by Python module semantics the second definition is the one
  bound to the name.  The second definition reads CPU-usage columns from a
  csv dict row; the name CpuUsage that LogEntry.__init__ calls is never
  defined anywhere in the module.  The model reflects both facts.
* The csv.DictReader collaborator is modelled for unquoted fields (fields
  are split on commas); every input considered in the theorems below is
  quote-free.  DictReader semantics that the model keeps: the first row
  gives the field names, blank lines are skipped, a short row pads missing
  fields with None (restval), and duplicate field names resolve to the last
  occurrence (dict built by zip).
* The yaml document decoding is an external library call; the model keeps
  the raw collected header lines as the metadata value, which is all the
  analyzed properties inspect.
-/

namespace Radvisor

/-- Python exceptions that the source can raise or catch: StopIteration
(from next/peek on an exhausted iterator), ValueError (from int() on a
non-numeric string), TypeError (from subscripting a str with a str key),
KeyError (from a missing dict key), AttributeError (from calling a str
method on None), csv.Error (the only class the source ever catches), and
NameError (from evaluating an unbound global name). -/
inductive PyErr where
  | stopIteration
  | valueError
  | typeError
  | keyError
  | attrError
  | csvError
  | nameError (missing : String)
  deriving DecidableEq, Repr

/-- Helper for pySplit: splits a character list on a separator character,
accumulating the current field in reverse. -/
def splitFieldsAux (sep : Char) : List Char → List Char → List (List Char)
  | [], acc => [acc.reverse]
  | c :: cs, acc =>
    if c = sep then acc.reverse :: splitFieldsAux sep cs []
    else splitFieldsAux sep cs (c :: acc)

/-- Python str.split with an explicit one-character separator: consecutive
separators produce empty fields and the empty string yields one empty
field, exactly as in Python. -/
def pySplit (s : String) (sep : Char) : List String :=
  (splitFieldsAux sep s.data []).map (fun cs => String.mk cs)

/-- Python str.strip(): removes whitespace from both ends. -/
def pyStrip (s : String) : String :=
  String.mk (((s.data.dropWhile Char.isWhitespace).reverse.dropWhile
    Char.isWhitespace).reverse)

/-- Python str.startswith. -/
def pyStartsWith (s pre : String) : Bool :=
  pre.data.isPrefixOf s.data

/-- Helper for pyContains: does pat occur as a contiguous run in the list? -/
def containsAux (pat : List Char) : List Char → Bool
  | [] => pat.isEmpty
  | c :: cs => pat.isPrefixOf (c :: cs) || containsAux pat cs

/-- The Python expression "pat in s" on strings: substring containment. -/
def pyContains (s pat : String) : Bool :=
  containsAux pat.data s.data

/-- Helper for pyInt: folds a run of decimal digits into a number, failing
on the first non-digit character. -/
def digitsValAux : List Char → Nat → Option Nat
  | [], acc => some acc
  | c :: cs, acc =>
    if c.isDigit then digitsValAux cs (10 * acc + (c.toNat - 48)) else none

/-- Python int(str): strips surrounding whitespace, accepts an optional
sign followed by at least one decimal digit, and raises ValueError
otherwise.  (Digit-group underscores, which no rAdvisor log contains, are
not modelled.) -/
def pyInt (s : String) : Except PyErr Int :=
  match (pyStrip s).data with
  | [] => .error .valueError
  | c :: rest =>
    if c = '-' then
      match rest with
      | [] => .error .valueError
      | _ =>
        match digitsValAux rest 0 with
        | some n => .ok (-(n : Int))
        | none => .error .valueError
    else if c = '+' then
      match rest with
      | [] => .error .valueError
      | _ =>
        match digitsValAux rest 0 with
        | some n => .ok ((n : Int))
        | none => .error .valueError
    else
      match digitsValAux (c :: rest) 0 with
      | some n => .ok ((n : Int))
      | none => .error .valueError

/-- Source in_t (lines 21-24): None or the empty string coerce to 0,
anything else goes through int(), whose ValueError propagates. -/
def in_t : Option String → Except PyErr Int
  | none => .ok 0
  | some val => if val.length > 0 then pyInt val else .ok 0

/-- A csv.DictReader row: field name to value, where a None value stands
for the restval padding of a short row. -/
abbrev Row := List (String × Option String)

/-- Python dict subscription row[k]: raises KeyError when the key is
absent; the dict is built by zip, so a duplicated field name resolves to
its last occurrence. -/
def rowGet (r : Row) (k : String) : Except PyErr (Option String) :=
  match (r.filter (fun p => p.1 == k)).getLast? with
  | some p => .ok p.2
  | none => .error .keyError

/-- dict(zip(fieldnames, vals)) with restval None padding for missing
trailing fields, as csv.DictReader builds each row. -/
def mkRow (fieldnames : List String) (vals : List String) : Row :=
  fieldnames.enum.map (fun p => (p.2, vals.get? p.1))

/-- A Python value as far as the source dispatches on it: parse_blkio
passes a str where the live BlkioEntry initializer expects a dict row. -/
inductive PyVal where
  | vstr (s : String)
  | vrow (r : Row)

/-- Python subscription v[k] with a string key: on a dict it is rowGet; on
a str it raises TypeError (string indices must be integers). -/
def pySubscript : PyVal → String → Except PyErr (Option String)
  | .vstr _, _ => .error .typeError
  | .vrow r, k => rowGet r k

/-- The fields assigned by the SECOND class definition named BlkioEntry
(source lines 49-63), the one the name BlkioEntry is actually bound to.
Despite its name it decodes the CPU-usage columns of a csv dict row.  The
first definition (lines 34-46), which decoded a "major:minor op value"
string, is shadowed and unreachable. -/
structure BlkioEntry where
  total : Int
  system_usage : Int
  user_usage : Int
  percpu : List Int
  system_stat : Int
  user_stat : Int
  throttling_periods : Int
  throttled_periods : Int
  throttled_time : Int
  deriving DecidableEq, Repr

/-- Initializer of the live BlkioEntry class (source lines 54-63).  Called
with a str argument (as parse_blkio does), the very first subscription
row["cpu.usage.total"] raises TypeError.  A None percpu cell would raise
AttributeError from None.split. -/
def BlkioEntry_init (row : PyVal) : Except PyErr BlkioEntry := do
  let total ← in_t (← pySubscript row "cpu.usage.total")
  let system_usage ← in_t (← pySubscript row "cpu.usage.system")
  let user_usage ← in_t (← pySubscript row "cpu.usage.user")
  let percpuCell ← pySubscript row "cpu.usage.percpu"
  let percpu ←
    match percpuCell with
    | none => .error .attrError
    | some s => (pySplit s ' ').mapM (fun cpu => in_t (some (pyStrip cpu)))
  let system_stat ← in_t (← pySubscript row "cpu.stat.system")
  let user_stat ← in_t (← pySubscript row "cpu.stat.user")
  let throttling_periods ← in_t (← pySubscript row "cpu.throttling.periods")
  let throttled_periods ← in_t (← pySubscript row "cpu.throttling.throttled.count")
  let throttled_time ← in_t (← pySubscript row "cpu.throttling.throttled.time")
  pure { total := total, system_usage := system_usage, user_usage := user_usage,
         percpu := percpu, system_stat := system_stat, user_stat := user_stat,
         throttling_periods := throttling_periods,
         throttled_periods := throttled_periods, throttled_time := throttled_time }

/-- Source parse_blkio (lines 146-152): split the cell on commas, strip
each piece, keep the pieces with exactly three space-separated tokens that
do not contain the substring Total anywhere, and construct a BlkioEntry
from each kept piece.  Because the name BlkioEntry is bound to the CPU
row decoder, that construction raises TypeError on every kept piece. -/
def parse_blkio (raw : String) : Except PyErr (List BlkioEntry) :=
  let split := (pySplit raw ',').map pyStrip
  (split.filter
    (fun entry => (pySplit entry ' ').length == 3 && !(pyContains entry "Total"))).mapM
    (fun entry => BlkioEntry_init (.vstr entry))

/-- A parsed log entry.  The source initializer (lines 126-143) assigns
the read timestamp and then evaluates CpuUsage(row); CpuUsage is an
unbound name, so no later field is ever assigned. -/
structure LogEntry where
  read : Int
  deriving DecidableEq, Repr

/-- The ordered dictionary of read timestamp to LogEntry that load_file
builds, as an insertion-ordered association list with Python dict update
semantics (odInsert below). -/
abbrev SampleSeq := List (Int × LogEntry)

/-- Python dict/OrderedDict item assignment d[k] = v: an existing key
keeps its position and gets the new value; a new key is appended. -/
def odInsert (entries : SampleSeq) (k : Int) (v : LogEntry) : SampleSeq :=
  if entries.any (fun p => p.1 == k) then
    entries.map (fun p => if p.1 == k then (k, v) else p)
  else entries ++ [(k, v)]

/-- Source LogEntry.__init__ (lines 126-143): reads row["read"] through
in_t, then evaluates CpuUsage(row).  The module never defines CpuUsage
(the CPU decoder class was declared under the name BlkioEntry), so the
initializer raises NameError there; lines 133-143 are unreachable. -/
def LogEntry_init (row : Row) (_entries : SampleSeq) (_preread : Option Int) :
    Except PyErr LogEntry :=
  match rowGet row "read" with
  | .error e => .error e
  | .ok cell =>
    match in_t cell with
    | .error e => .error e
    | .ok _read => .error (.nameError "CpuUsage")

/-- The yaml_lines collected by load_file; the yaml decoding itself is an
external library collaborator, so the model keeps the raw lines. -/
abbrev Metadata := List String

/-- Source load_file lines 230-245: skip the first line unconditionally,
collect lines until one starts with three dashes (peek on an exhausted
iterator raises StopIteration), then consume that delimiter line.  Returns
the collected header lines and the remaining lines. -/
def split_header : List String → Except PyErr (Metadata × List String)
  | [] => .error .stopIteration
  | _ :: rest =>
    if rest.any (fun l => pyStartsWith l "---") then
      .ok (rest.takeWhile (fun l => !pyStartsWith l "---"),
           (rest.dropWhile (fun l => !pyStartsWith l "---")).drop 1)
    else .error .stopIteration

/-- The row loop of load_file (lines 252-257), returning the entries built
so far together with the exception, if any, that stopped the loop. -/
def rowLoop : List Row → SampleSeq → Option Int → SampleSeq × Option PyErr
  | [], entries, _ => (entries, none)
  | row :: rest, entries, preread =>
    match LogEntry_init row entries preread with
    | .error e => (entries, some e)
    | .ok entry => rowLoop rest (odInsert entries entry.read entry) (some entry.read)

/-- Source load_file lines 247-262: csv.DictReader over the remaining
lines (blank lines skipped, first line giving the field names), an
explicit extra header-row skip via next (StopIteration when there is no
such row), then the row loop; only csv.Error is caught, every other
exception propagates out of load_file. -/
def load_rows (metadata : Metadata) (remaining : List String) :
    Except PyErr (SampleSeq × Metadata) :=
  let rows := (remaining.filter (fun l => !(l == ""))).map (fun l => pySplit l ',')
  match rows with
  | [] => .error .stopIteration
  | fieldnames :: afterHeader =>
    match afterHeader with
    | [] => .error .stopIteration
    | _ :: dataRows =>
      let dictRows := dataRows.map (fun vals => mkRow fieldnames vals)
      match rowLoop dictRows [] none with
      | (entries, none) => .ok (entries, metadata)
      | (entries, some e) =>
        if e = PyErr.csvError then .ok (entries, metadata) else .error e

/-- Source load_file (lines 221-262): header split then row decoding. -/
def load_file (lines : List String) : Except PyErr (SampleSeq × Metadata) :=
  match split_header lines with
  | .error e => .error e
  | .ok (metadata, remaining) => load_rows metadata remaining

/-- Source parse_all (lines 168-180): load every file in order into a
filename-keyed collection.  The loop has no exception handling, so the
first file whose load_file raises aborts the whole batch. -/
def parse_all : List (String × List String) →
    Except PyErr (List (String × (SampleSeq × Metadata)))
  | [] => .ok []
  | f :: rest =>
    match load_file f.2 with
    | .error e => .error e
    | .ok r =>
      match parse_all rest with
      | .error e => .error e
      | .ok tail => .ok ((f.1, r) :: tail)

/-- Source find_deltas (lines 212-218): pairwise consecutive differences,
new array of length len(arr) - 1. -/
def find_deltas (arr : List ℚ) : List ℚ :=
  (arr.dropLast.zip (arr.drop 1)).map (fun p => p.2 - p.1)

/-- Source get_ts_deltas (lines 193-198): iterate the ordered dictionary
(which yields its keys, the read timestamps, in insertion order), convert
each from nanoseconds to milliseconds by dividing by 1e6, and take the
consecutive deltas. -/
def get_ts_deltas (entries : SampleSeq) : List ℚ :=
  find_deltas (entries.map (fun p => (p.1 : ℚ) / 1000000))

/-- Modelled from the spec: the descriptive-statistics table of the
interval analyzer is produced by an external dataframe collaborator
(pandas describe), which is not part of this repository; the spec requires
a defined result on an empty delta array with count 0 and every remaining
field undefined.  Undefined/NaN fields are modelled as none; of the
moment/summary fields the model keeps count, mean, min and max. -/
structure IntervalStats where
  count : Nat
  mean : Option ℚ
  min : Option ℚ
  max : Option ℚ
  deriving DecidableEq, Repr

/-- Minimum of a list of rationals, none when empty. -/
def listMin : List ℚ → Option ℚ
  | [] => none
  | x :: xs => some (xs.foldl (fun a b => if a ≤ b then a else b) x)

/-- Maximum of a list of rationals, none when empty. -/
def listMax : List ℚ → Option ℚ
  | [] => none
  | x :: xs => some (xs.foldl (fun a b => if a ≤ b then b else a) x)

/-- Modelled from the spec: descriptive statistics over the delta array;
count 0 and undefined remaining fields on an empty array. -/
def describe (arr : List ℚ) : IntervalStats :=
  { count := arr.length
  , mean := if arr.length = 0 then none else some (arr.sum / (arr.length : ℚ))
  , min := listMin arr
  , max := listMax arr }

/-- Source analyze_timestamps (lines 183-190): compute the timestamp
deltas of a sample sequence and hand them to the statistics collaborator
(the dataframe describe call, modelled by describe above). -/
def analyze_timestamps (entries : SampleSeq) : IntervalStats :=
  describe (get_ts_deltas entries)

/-- Source remove_outliers helper: numpy percentile with the default
linear interpolation method, over exact rationals.  For a sorted array s
of length n the p-th percentile sits at position h = (n-1)*p/100 and is
interpolated linearly between s[floor h] and s[floor h + 1].  (numpy
raises on an empty array; the n = 0 branch below is never evaluated by the
theorems.) -/
def percentile (arr : List ℚ) (p : ℚ) : ℚ :=
  let s := List.insertionSort (fun a b => a ≤ b) arr
  let n := s.length
  if n = 0 then 0
  else
    let h : ℚ := ((n : ℚ) - 1) * p / 100
    let k : ℕ := h.floor.toNat
    let frac : ℚ := h - (k : ℚ)
    match s.get? k, s.get? (k + 1) with
    | some a, some b => a + frac * (b - a)
    | some a, none => a
    | none, _ => 0

/-- Source remove_outliers (lines 201-209): quartiles by linear
interpolation, iqr = q75 - q25, limit = z * iqr with default sensitivity
z = 1.5, and retain the values within [q25 - limit, q75 + limit]. -/
def remove_outliers (arr : List ℚ) (z : ℚ := 3 / 2) : List ℚ :=
  let q25 := percentile arr 25
  let q75 := percentile arr 75
  let iqr := q75 - q25
  let limit := z * iqr
  arr.filter (fun a => decide (q25 - limit ≤ a) && decide (a ≤ q75 + limit))

/- Concrete input files used by the theorems below. -/

/-- The header row listing every recognized column of the log format. -/
def fullHeaderRow : String :=
  "read,cpu.usage.total,cpu.usage.system,cpu.usage.user,cpu.usage.percpu," ++
  "cpu.stat.system,cpu.stat.user,cpu.throttling.periods," ++
  "cpu.throttling.throttled.count,cpu.throttling.throttled.time," ++
  "memory.usage.current,memory.usage.max,memory.limit.hard,memory.limit.soft," ++
  "memory.failcnt,memory.hierarchical_limit.memory," ++
  "memory.hierarchical_limit.memoryswap,memory.cache,memory.rss.all," ++
  "memory.rss.huge,memory.mapped,memory.swap,memory.paged.in,memory.paged.out," ++
  "memory.fault.total,memory.fault.major,memory.anon.inactive," ++
  "memory.anon.active,memory.file.inactive,memory.file.active," ++
  "memory.unevictable,pids.current,pids.max,blkio.service.bytes," ++
  "blkio.service.ios,blkio.service.time,blkio.queued,blkio.wait," ++
  "blkio.merged,blkio.time,blkio.sectors"

/-- One data row with a numeric value in every numeric column, a
space-separated percpu list, the literal max in pids.max, and empty blkio
cells (an empty cell decodes to an empty entry list). -/
def fullDataRow : String :=
  "1000000,500,200,300,250 250,10,20,0,0,0," ++
  "0,0,0,0,0,0,0,0,0,0,0,0,0,0,0,0,0,0,0,0,0," ++
  "1,max,,,,,,,,"

/-- A well-formed log file: delimiter, metadata body, delimiter, the
column-header row, its duplicate, and one data row. -/
def oneRowFile : List String :=
  ["---", "Version: 1.3.1", "---", fullHeaderRow, fullHeaderRow, fullDataRow]

/-- A second data row differing from fullDataRow only in its read
timestamp. -/
def fullDataRow2 : String :=
  "1000050,500,200,300,250 250,10,20,0,0,0," ++
  "0,0,0,0,0,0,0,0,0,0,0,0,0,0,0,0,0,0,0,0,0," ++
  "1,max,,,,,,,,"

/-- A well-formed log file with two data rows. -/
def twoRowFile : List String :=
  ["---", "Version: 1.3.1", "---", fullHeaderRow, fullHeaderRow,
   fullDataRow, fullDataRow2]

/-- A file whose header section never terminates: a first delimiter line
and then end of input before any second delimiter. -/
def unterminatedFile : List String :=
  ["---", "container: abc"]

/-- A well-formed file with zero data rows. -/
def emptyBodyFile : List String :=
  ["---", "a: 1", "---", "read", "read"]

/-- A file whose first data row has non-numeric content in the numeric
read column, followed by a well-formed data row. -/
def badNumericFile : List String :=
  ["---", "a: 1", "---", "read", "read", "abc", "57"]

/- Helper lemmas shared by the claim theorems. -/

/-- If the whole list satisfies p, takeWhile over the list followed by an
element refuting p stops exactly at that element. -/
lemma takeWhile_eq_of_all (p : String → Bool) (yaml : List String) (d : String)
    (rest : List String) (hy : yaml.all p = true) (hd : p d = false) :
    (yaml ++ d :: rest).takeWhile p = yaml := by
  induction yaml with
  | nil => simp [List.takeWhile_cons, hd]
  | cons x xs ih =>
    simp only [List.all_cons, Bool.and_eq_true] at hy
    simp [List.takeWhile_cons, hy.1, ih hy.2]

/-- Companion of takeWhile_eq_of_all for dropWhile. -/
lemma dropWhile_eq_of_all (p : String → Bool) (yaml : List String) (d : String)
    (rest : List String) (hy : yaml.all p = true) (hd : p d = false) :
    (yaml ++ d :: rest).dropWhile p = d :: rest := by
  induction yaml with
  | nil => simp [List.dropWhile_cons, hd]
  | cons x xs ih =>
    simp only [List.all_cons, Bool.and_eq_true] at hy
    simp [List.dropWhile_cons, hy.1, ih hy.2]

/-- When every element fails p, any over the list is false. -/
lemma any_eq_false_of_all_neg (p : String → Bool) (l : List String)
    (h : l.all (fun x => !p x) = true) : l.any p = false := by
  induction l with
  | nil => rfl
  | cons x xs ih =>
    simp only [List.all_cons, Bool.and_eq_true, Bool.not_eq_true'] at h
    simp [List.any_cons, h.1, ih h.2]

/-- The header-splitting stage on a delimited document: whatever the first
line is, the lines before the next delimiter become the metadata block and
the lines after it remain. -/
lemma split_header_eq (l1 d : String) (yaml rest : List String)
    (hy : yaml.all (fun l => !pyStartsWith l "---") = true)
    (hd : pyStartsWith d "---" = true) :
    split_header (l1 :: (yaml ++ d :: rest)) = .ok (yaml, rest) := by
  have hany : (yaml ++ d :: rest).any (fun l => pyStartsWith l "---") = true := by
    induction yaml with
    | nil => simp only [List.nil_append, List.any_cons, hd, Bool.true_or]
    | cons x xs ih =>
      simp only [List.all_cons, Bool.and_eq_true] at hy
      simp only [List.cons_append, List.any_cons, ih hy.2, Bool.or_true]
  have ht := takeWhile_eq_of_all (fun l => !pyStartsWith l "---") yaml d rest hy
    (by simp [hd])
  have hdw := dropWhile_eq_of_all (fun l => !pyStartsWith l "---") yaml d rest hy
    (by simp [hd])
  simp [split_header, hany, ht, hdw]

/-- Loading a well-formed file whose tabular section is just the header
row and its duplicate returns normally with an empty sequence. -/
lemma load_file_no_data (yaml : List String) (hdr dup : String)
    (hy : yaml.all (fun l => !pyStartsWith l "---") = true)
    (hh : hdr ≠ "") (hd2 : dup ≠ "") :
    load_file ("---" :: (yaml ++ "---" :: [hdr, dup])) = .ok ([], yaml) := by
  have hs := split_header_eq "---" "---" yaml [hdr, dup] hy (by decide)
  have hhb : (hdr == "") = false := by simp [hh]
  have hdb : (dup == "") = false := by simp [hd2]
  simp [load_file, hs, load_rows, List.filter, hhb, hdb, rowLoop]

/- Claim theorems. -/

/-- C1: the claim says that for every well-formed log file (two delimiter
lines, a column-header row, its duplicate, data rows with the recognized
columns) parse returns one decoded Sample per data row keyed by that row's
read timestamp instead of raising during row decoding.  The code violates
this: on a well-formed file with every recognized column and one data row,
decoding the row reads the read field and then evaluates the unbound name
CpuUsage, so load_file raises NameError instead of returning. -/
theorem c1_well_formed_file_row_decoding_raises :
    load_file oneRowFile = .error (.nameError "CpuUsage") := rfl

/-- C2 counterexample: a batch holding a file that lacks the second
delimiter followed by a perfectly valid file.  The claim says the bad file
fails with FormatError(MissingHeaderTerminator), is skipped, and the batch
continues; instead parse_all propagates the uncaught StopIteration from
the header scan and never reaches the valid file, even though that file
loads fine on its own. -/
theorem c2_missing_terminator_not_skipped :
    parse_all [("bad.log", unterminatedFile), ("good.log", emptyBodyFile)]
        = .error .stopIteration ∧
    load_file emptyBodyFile = .ok ([], ["a: 1"]) := ⟨rfl, rfl⟩

/-- C2 (amended): a file that reaches end of input before a second
delimiter line makes the header scan's peek raise StopIteration, which
nothing catches; parse_all therefore aborts the entire batch with that
exception and the remaining files are never processed (the source defines
no FormatError at all). -/
theorem c2_missing_terminator_aborts_batch (name l1 : String)
    (rest : List String) (files : List (String × List String))
    (h : rest.all (fun l => !pyStartsWith l "---") = true) :
    parse_all ((name, l1 :: rest) :: files) = .error .stopIteration := by
  have hany := any_eq_false_of_all_neg (fun l => pyStartsWith l "---") rest h
  have hsf : split_header (l1 :: rest) = .error .stopIteration := by
    simp [split_header, hany]
  have hlf : load_file (l1 :: rest) = .error .stopIteration := by
    simp [load_file, hsf]
  simp [parse_all, hlf]

/-- C2 witness: the amended theorem applied to a one-line header fragment
in a singleton batch. -/
theorem c2_missing_terminator_aborts_batch_witness :
    parse_all [("x.log", ["---", "k: v"])] = .error .stopIteration :=
  c2_missing_terminator_aborts_batch "x.log" "---" ["k: v"] [] (by decide)

/-- C3 counterexample: a file whose first data row holds non-numeric
content in the numeric read column, followed by a well-formed row with
read 57.  The claim says the failure is reported as
FormatError(InvalidNumericField) and the loop continues so that row 57
still appears in the returned sequence; instead load_file propagates the
uncaught ValueError from int() and returns nothing at all. -/
theorem c3_invalid_numeric_aborts :
    load_file badNumericFile = .error .valueError := rfl

/-- C3 (amended): non-numeric content in the read column raises ValueError
from int(); the row loop's handler catches only csv.Error, so the
exception aborts load_file, no entries are returned, and the rows after
the failing row are never processed, whatever they are.  (Non-numeric
content in any other numeric column is never even reached: the initializer
fails on the unbound name CpuUsage first.) -/
theorem c3_invalid_numeric_uncaught (yaml : List String) (rest : List String)
    (hy : yaml.all (fun l => !pyStartsWith l "---") = true) :
    load_file ("---" :: (yaml ++ "---" :: ("read" :: "read" :: "abc" :: rest)))
      = .error .valueError := by
  have hs := split_header_eq "---" "---" yaml ("read" :: "read" :: "abc" :: rest)
    hy (by decide)
  simp only [load_file, hs]
  rfl

/-- C3 witness: the amended theorem applied to a concrete file whose bad
row is followed by two further rows. -/
theorem c3_invalid_numeric_uncaught_witness :
    load_file ("---" :: (["a: 1"] ++ "---" :: ("read" :: "read" :: "abc" :: ["57", "58"])))
      = .error .valueError :=
  c3_invalid_numeric_uncaught ["a: 1"] ["57", "58"] (by decide)

/-- C4 counterexample: a well-formed file with two data rows.  The claim
says that for any valid file the returned sequence's iteration order
equals the row order; here no sequence is returned at all, because the
decoding of the first row raises NameError on the unbound name CpuUsage. -/
theorem c4_valid_file_returns_no_sequence :
    load_file twoRowFile = .error (.nameError "CpuUsage") := rfl

/-- C4 (amended): row decoding fails on every row (the read cell is read
and then the unbound name CpuUsage is evaluated), so the only valid files
for which parse returns are those with zero data rows; for those the
returned sequence is empty and its iteration order trivially equals the
(empty) row order of the file. -/
theorem c4_order_only_for_returning_files :
    (∀ (row : Row) (entries : SampleSeq) (preread : Option Int),
        ∃ e, LogEntry_init row entries preread = .error e) ∧
    (∀ (yaml : List String) (hdr dup : String),
        yaml.all (fun l => !pyStartsWith l "---") = true → hdr ≠ "" → dup ≠ "" →
        (load_file ("---" :: (yaml ++ "---" :: [hdr, dup]))).map
          (fun r => r.1.map Prod.fst) = .ok []) := by
  constructor
  · intro row entries preread
    cases hr : rowGet row "read" with
    | error e => exact ⟨e, by simp [LogEntry_init, hr]⟩
    | ok v =>
      cases hv : in_t v with
      | error e => exact ⟨e, by simp [LogEntry_init, hr, hv]⟩
      | ok n => exact ⟨.nameError "CpuUsage", by simp [LogEntry_init, hr, hv]⟩
  · intro yaml hdr dup hy hh hd2
    rw [load_file_no_data yaml hdr dup hy hh hd2]
    rfl

/-- C4 witness: the amended theorem's file-level part applied to a
concrete zero-data-row file. -/
theorem c4_order_only_for_returning_files_witness :
    (load_file ["---", "a: 1", "---", "read", "read"]).map
      (fun r => r.1.map Prod.fst) = .ok [] :=
  c4_order_only_for_returning_files.2 ["a: 1"] "read" "read"
    (by decide) (by decide) (by decide)

/-- C5: a well-formed file whose tabular section holds the column-header
row and its duplicate but zero data rows is valid; parse returns normally
with an empty sequence instead of raising.  (The duplicate header line
must be present: the reader consumes two header lines before the data.) -/
theorem c5_zero_data_rows_ok (yaml : List String) (hdr dup : String)
    (hy : yaml.all (fun l => !pyStartsWith l "---") = true)
    (hh : hdr ≠ "") (hd2 : dup ≠ "") :
    load_file ("---" :: (yaml ++ "---" :: [hdr, dup])) = .ok ([], yaml) :=
  load_file_no_data yaml hdr dup hy hh hd2

/-- C5 witness: a concrete zero-data-row file with the full recognized
header row. -/
theorem c5_zero_data_rows_ok_witness :
    load_file ["---", "Version: 1.3.1", "---", fullHeaderRow, fullHeaderRow]
      = .ok ([], ["Version: 1.3.1"]) :=
  c5_zero_data_rows_ok ["Version: 1.3.1"] fullHeaderRow fullHeaderRow
    (by decide) (by decide) (by decide)

/-- C6: the claim says blkio cell decoding drops the Total and malformed
sub-entries and decodes each remaining sub-entry into a BlkioEntry with
integer major, minor, value and a string operation.  The code does drop a
Total sub-entry and a two-token sub-entry (first three conjuncts also show
the filter drops any sub-entry merely containing Total as a substring,
such as an operation token Totals), but every retained sub-entry raises
TypeError: the name BlkioEntry is bound to the second class definition,
the CPU-usage row decoder, whose initializer subscripts the sub-entry
string with the key cpu.usage.total. -/
theorem c6_blkio_decoding_raises_typeerror :
    parse_blkio "8:0 Total 100" = .ok [] ∧
    parse_blkio "8:0 Totals 5" = .ok [] ∧
    parse_blkio "8:0 Read" = .ok [] ∧
    parse_blkio "8:0 Read 100" = .error .typeError ∧
    parse_blkio "8:0 Read 100, 8:0 Total 100" = .error .typeError :=
  ⟨rfl, rfl, rfl, rfl, rfl⟩

/-- C7: delta computation divides each read timestamp by 1e6 to convert
nanoseconds to milliseconds and produces one signed consecutive difference
per adjacent pair, so a sequence of length N yields N - 1 deltas; the
sample sequence with timestamps 1000000, 3000000, 6000000 yields exactly
the deltas 2 and 3 milliseconds. -/
theorem c7_delta_computation :
    (∀ entries : SampleSeq, (get_ts_deltas entries).length = entries.length - 1) ∧
    get_ts_deltas [(1000000, ⟨1000000⟩), (3000000, ⟨3000000⟩), (6000000, ⟨6000000⟩)]
      = [2, 3] := by
  constructor
  · intro entries
    simp [get_ts_deltas, find_deltas]
  · norm_num [get_ts_deltas, find_deltas]

/-- C8: outlier rejection retains exactly the values of the array lying in
the closed interval from q25 - z * iqr to q75 + z * iqr, where q25 and q75
are the linearly interpolated percentiles and iqr their difference; on the
array 1,2,2,3,3,3,4,4,100 with the default z = 1.5 the bounds are -1 and 7,
so 100 is excluded and everything else is retained. -/
theorem c8_outlier_rejection :
    (∀ (arr : List ℚ) (z a : ℚ),
        a ∈ remove_outliers arr z ↔
          a ∈ arr ∧
          percentile arr 25 - z * (percentile arr 75 - percentile arr 25) ≤ a ∧
          a ≤ percentile arr 75 + z * (percentile arr 75 - percentile arr 25)) ∧
    remove_outliers [1, 2, 2, 3, 3, 3, 4, 4, 100] = [1, 2, 2, 3, 3, 3, 4, 4] := by
  constructor
  · intro arr z a
    simp [remove_outliers, List.mem_filter, and_assoc]
  · have h25 : percentile [1, 2, 2, 3, 3, 3, 4, 4, 100] 25 = 2 := by
      unfold percentile
      rw [show List.insertionSort (fun a b => a ≤ b) [(1 : ℚ), 2, 2, 3, 3, 3, 4, 4, 100]
          = [1, 2, 2, 3, 3, 3, 4, 4, 100] from by decide]
      norm_num
      rw [show (Rat.floor (2 : ℚ)).toNat = 2 from by decide]
      norm_num
    have h75 : percentile [1, 2, 2, 3, 3, 3, 4, 4, 100] 75 = 4 := by
      unfold percentile
      rw [show List.insertionSort (fun a b => a ≤ b) [(1 : ℚ), 2, 2, 3, 3, 3, 4, 4, 100]
          = [1, 2, 2, 3, 3, 3, 4, 4, 100] from by decide]
      norm_num
      rw [show (Rat.floor (6 : ℚ)).toNat = 6 from by decide]
      norm_num
    unfold remove_outliers
    rw [h25, h75]
    norm_num [List.filter]

/-- C9: a sample sequence with fewer than two entries yields an empty
delta array, and the analyzer produces the defined empty statistics
(count 0, every other field undefined) instead of crashing. -/
theorem c9_short_sequence_defined (entries : SampleSeq)
    (h : entries.length < 2) :
    get_ts_deltas entries = [] ∧
    analyze_timestamps entries
      = { count := 0, mean := none, min := none, max := none } := by
  match entries with
  | [] => exact ⟨rfl, rfl⟩
  | [x] => exact ⟨rfl, rfl⟩
  | x :: y :: tl =>
    simp only [List.length_cons] at h
    omega

/-- C9 witness: the theorem applied to a one-sample sequence. -/
theorem c9_short_sequence_defined_witness :
    get_ts_deltas [((5 : Int), ⟨5⟩)] = [] ∧
    analyze_timestamps [((5 : Int), ⟨5⟩)]
      = { count := 0, mean := none, min := none, max := none } :=
  c9_short_sequence_defined [(5, ⟨5⟩)] (by decide)

/-- C10: the parser discards the first line of the file without ever
inspecting it (load_file does not depend on the first line at all), and
for any input whose later lines contain a delimiter line, the lines
between the first line and that delimiter become the metadata document. -/
theorem c10_first_line_unchecked :
    (∀ (l1 l2 : String) (rest : List String),
        load_file (l1 :: rest) = load_file (l2 :: rest)) ∧
    (∀ (l1 : String) (yaml rest : List String),
        yaml.all (fun l => !pyStartsWith l "---") = true →
        split_header (l1 :: (yaml ++ "---" :: rest)) = .ok (yaml, rest)) := by
  constructor
  · intro l1 l2 rest
    rfl
  · intro l1 yaml rest hy
    exact split_header_eq l1 "---" yaml rest hy (by decide)

/-- C10 witness: a file whose first line is arbitrary non-delimiter text
still has lines two onward parsed as the metadata document. -/
theorem c10_first_line_unchecked_witness :
    split_header ("this is not a delimiter"
        :: (["a: 1"] ++ "---" :: ["read", "read"]))
      = .ok (["a: 1"], ["read", "read"]) :=
  c10_first_line_unchecked.2 "this is not a delimiter" ["a: 1"] ["read", "read"]
    (by decide)

end Radvisor
